import Mathlib

/-
Verification of the TOGW (takeoff gross weight) fixed-point solvers of the
repository, against its natural-language specification.

Embedded source files:
  * `src/Assignments/A2/Weight&Cost/A2_weight_est_concept_1.py`
    (`iterate_W0`, `solve_case`, `W_engine`, the Breguet fuel fractions)
  * `src/Assignments/A2/Weight&Cost/# Weight Concept 2 - Carrier-Based Fight.py`
    (mission payload selection, guarded Breguet fuel fractions,
    segment-fraction product, the un-capped TOGW while loop)

Modelling conventions:
  * Python floats are modelled as exact rationals (ℚ).
  * Python raises `ZeroDivisionError` when a float division has divisor 0
    (it does not produce IEEE infinities); a division is therefore modelled
    by `pydiv`, which returns `Except.error PyErr.zeroDivision` on a zero
    divisor.  `raise ValueError(...)` is modelled by `PyErr.valueError`.
    Reading a variable that was never assigned because the loop body never
    ran (`delta` in `iterate_W0` when `max_iter = 0`, `We_W0` after the
    concept-2 while loop when the loop is skipped) raises `NameError`,
    modelled by `PyErr.nameError`.
  * The empty-weight correlation `We/W0 = A * W0 ** C` (A = 2.392,
    C = -0.13 in concept 1; A = 1.05, C = -0.05 in concept 2) is a real
    power of the running guess.  The specification's data model makes the
    correlation a `WeightModel` input of the solver ("empty-weight
    correlation parameters (coefficient, exponent)"), so the embedding
    abstracts it as a function `We_of : ℚ → ℚ` applied exactly where the
    source applies `A * (W0 ** C)`.  Every control-flow theorem below is
    proved for an arbitrary correlation, and members of the power-law
    family A * W0 ^ C with rational values (C ∈ {0, -1}) instantiate it
    in concrete evaluations.
  * `math.exp` is transcendental; the embedding abstracts it as a function
    `e : ℚ → ℚ` applied exactly where the source applies `math.exp`.  The
    only fact about `exp` a claim needs is `exp 0 = 1`, taken as a
    hypothesis where used.
-/

/-- Python runtime errors that the embedded code can raise. -/
inductive PyErr where
  | zeroDivision : PyErr
  | valueError : PyErr
  | nameError : PyErr
  deriving DecidableEq

/-- Python float division: raises `ZeroDivisionError` on a zero divisor,
otherwise exact rational division. -/
def pydiv (a b : ℚ) : Except PyErr ℚ :=
  if b = 0 then .error .zeroDivision else .ok (a / b)

/-- The tuple `(W0, We_W0, iters, delta)` returned by concept 1's
`iterate_W0`. -/
structure IterResult where
  W0 : ℚ
  We_W0 : ℚ
  iters : ℕ
  delta : ℚ
  deriving DecidableEq

/-- The `for i in range(max_iter)` loop body of `iterate_W0`
(`A2_weight_est_concept_1.py`, lines 100-113), with the commented-out
denominator guard (lines 103-107) absent, exactly as in the source:

    for i in range(max_iter):
        We_W0 = A * (W0 ** C)
        denom = 1.0 - fuel_frac - We_W0
        W0_new = (W_payload + W_crew) / denom
        delta = abs(W0_new - W0) / abs(W0_new)
        W0 = W0_new
        if delta < err:
            return W0, We_W0, i+1, delta
    return W0, A * (W0 ** C), max_iter, delta

`fuel` is the number of loop iterations still allowed, `i` the number
already executed (so the fuel-exhausted return has `iters = i = max_iter`),
and `d?` the last bound value of `delta` (`none` before the first
iteration: the final `return` would then raise `NameError`). -/
def iterLoop (We_of : ℚ → ℚ) (N fuel_frac err : ℚ) :
    ℕ → ℕ → ℚ → Option ℚ → Except PyErr IterResult
  | 0, i, W0, d? =>
      match d? with
      | none => .error .nameError
      | some d => .ok ⟨W0, We_of W0, i, d⟩
  | fuel + 1, i, W0, _ =>
      match pydiv N (1 - fuel_frac - We_of W0) with
      | .error err2 => .error err2
      | .ok W0_new =>
          match pydiv |W0_new - W0| |W0_new| with
          | .error err2 => .error err2
          | .ok delta =>
              if delta < err then .ok ⟨W0_new, We_of W0, i + 1, delta⟩
              else iterLoop We_of N fuel_frac err fuel (i + 1) W0_new (some delta)

/-- Concept 1's `iterate_W0(W_payload, W_crew, fuel_frac, W0_guess, err,
max_iter)`.  The numerator `W_payload + W_crew` is constant across the
loop, as in the source. -/
def iterate_W0 (We_of : ℚ → ℚ) (W_payload W_crew fuel_frac W0_guess err : ℚ)
    (max_iter : ℕ) : Except PyErr IterResult :=
  iterLoop We_of (W_payload + W_crew) fuel_frac err max_iter 0 W0_guess none

/-- Concept 1, line 22: `W_engine = 3830`. -/
def W_engine : ℚ := 3830

/-- The dictionary returned by concept 1's `solve_case` (minus the
constant name string). -/
structure CaseResult where
  W0 : ℚ
  We : ℚ
  Wf : ℚ
  WeW0 : ℚ
  WfW0 : ℚ
  iters : ℕ
  deriving DecidableEq

/-- Concept 1's `solve_case` (lines 115-127): runs `iterate_W0` with its
default tolerance `1e-6` and default cap `200`, then reports
`W0 + W_engine`, `We_W0 * W0 + W_engine`, `fuel_frac_total * W0`, and the
raw ratios. -/
def solve_case (We_of : ℚ → ℚ) (W_crew fuel_frac_total W_payload_case W0_guess : ℚ) :
    Except PyErr CaseResult :=
  match iterate_W0 We_of W_payload_case W_crew fuel_frac_total W0_guess (1/1000000) 200 with
  | .error err2 => .error err2
  | .ok r =>
      .ok ⟨r.W0 + W_engine, r.We_W0 * r.W0 + W_engine, fuel_frac_total * r.W0,
           r.We_W0, fuel_frac_total, r.iters⟩

/-! ### Concept 2: payload selection -/

/-- Concept 2, line 25: `W_AIM120 = 350`. -/
def W_AIM120 : ℚ := 350

/-- Concept 2, line 26: `W_AIM9X = 186`. -/
def W_AIM9X : ℚ := 186

/-- Concept 2, line 28: air-to-air ordnance sum `W_A2A = 6*W_AIM120 + 2*W_AIM9X`. -/
def W_A2A : ℚ := 6 * W_AIM120 + 2 * W_AIM9X

/-- Concept 2, line 31: `W_MK83 = 1000`. -/
def W_MK83 : ℚ := 1000

/-- Concept 2, line 33: strike ordnance sum `W_strike = 4*W_MK83 + 2*W_AIM9X`. -/
def W_strike : ℚ := 4 * W_MK83 + 2 * W_AIM9X

/-- Concept 2, lines 43-50: the `mission_type` if/elif chain selecting
`W_payload`, raising `ValueError("Invalid mission type selected")` on any
unrecognized tag. -/
def select_payload (mission_type : String) : Except PyErr ℚ :=
  if mission_type = "A2A" then .ok W_A2A
  else if mission_type = "STRIKE" then .ok W_strike
  else if mission_type = "BOTH" then .ok (W_A2A + W_strike)
  else .error .valueError

/-! ### Concept 2: Breguet fuel fractions and mission fuel fraction -/

/-- Concept 2, line 64:
`Wf_Wi_cruise = math.exp(-R_nmi*c_tsfc/(V_kt*LD_cruise)) if V_kt > 0 else 1.0`.
`e` stands for `math.exp`. -/
def Wf_Wi_cruise (e : ℚ → ℚ) (R c V LD : ℚ) : Except PyErr ℚ :=
  if 0 < V then (pydiv (-R * c) (V * LD)).map e else .ok 1

/-- Concept 2, line 65:
`Wf_Wi_loiter = math.exp(-E_hr*c_tsfc/LD_cruise) if LD_cruise > 0 else 1.0`. -/
def Wf_Wi_loiter (e : ℚ → ℚ) (E c LD : ℚ) : Except PyErr ℚ :=
  if 0 < LD then (pydiv (-E * c) LD).map e else .ok 1

/-- Concept 1, line 59 (no degenerate-input guard):
`Wf_Wi_cruise = math.exp(-R_nmi * c_tsfc / (V_kt * LD_cruise))`. -/
def c1_Wf_Wi_cruise (e : ℚ → ℚ) (R c V LD : ℚ) : Except PyErr ℚ :=
  (pydiv (-R * c) (V * LD)).map e

/-- Concept 1, line 62 (no degenerate-input guard):
`Wf_Wi_loiter = math.exp(-E_hr * c_tsfc / LD_cruise)`. -/
def c1_Wf_Wi_loiter (e : ℚ → ℚ) (E c LD : ℚ) : Except PyErr ℚ :=
  (pydiv (-E * c) LD).map e

/-- Concept 2, lines 81-86: `W_end_W0` starts at 1.0, is multiplied by every
segment fraction in turn, then by the cruise and loiter Breguet ratios. -/
def W_end_W0 (segment_fracs : List ℚ) (cruise loiter : ℚ) : ℚ :=
  (segment_fracs.foldl (fun acc frac => acc * frac) 1) * cruise * loiter

/-- Concept 2, lines 64-88: compute the two Breguet ratios, then
`fuel_frac_mission = 1.0 - W_end_W0`. -/
def fuel_frac_mission (e : ℚ → ℚ) (segment_fracs : List ℚ) (R E c V LD : ℚ) :
    Except PyErr ℚ :=
  match Wf_Wi_cruise e R c V LD with
  | .error err2 => .error err2
  | .ok cr =>
      match Wf_Wi_loiter e E c LD with
      | .error err2 => .error err2
      | .ok lo => .ok (1 - W_end_W0 segment_fracs cr lo)

/-! ### Concept 2: the un-capped TOGW while loop -/

/-- Local state of concept 2's while loop: the running guess, the last
`delta`, the convergence history (`W0_history`), and the last bound value
of `We_W0` (`none` until the loop body first runs). -/
structure Loop2State where
  W0 : ℚ
  delta : ℚ
  history : List ℚ
  We_W0_opt : Option ℚ

/-- Concept 2, lines 109-115, the while loop

    while delta > error:
        W0_history.append(W0)
        We_W0 = A * (W0 ** C)
        W0_new = (W_payload + W_crew + W_avionics) / (1 - fuel_frac_total - We_W0)
        delta = abs(W0_new - W0) / abs(W0_new)
        W0 = W0_new

as a fueled step function; `none` means the fuel ran out with the loop
still running (the source has no iteration cap at all). -/
def togw_loop2 (We_of : ℚ → ℚ) (N fuel_frac_total error : ℚ) :
    ℕ → Loop2State → Option (Except PyErr Loop2State)
  | 0, _ => none
  | fuel + 1, s =>
      if s.delta > error then
        match pydiv N (1 - fuel_frac_total - We_of s.W0) with
        | .error err2 => some (.error err2)
        | .ok W0_new =>
            match pydiv |W0_new - s.W0| |W0_new| with
            | .error err2 => some (.error err2)
            | .ok d =>
                togw_loop2 We_of N fuel_frac_total error fuel
                  ⟨W0_new, d, s.history ++ [s.W0], some (We_of s.W0)⟩
      else some (.ok s)

/-- Concept 2, lines 103-118: `delta` starts at `2 * error`, `W0` at the
seed guess, then the while loop runs; afterwards `We = We_W0 * W0` (a
`NameError` if the loop body never ran).  Returns `(W0, We)`. -/
def togw_concept2 (We_of : ℚ → ℚ) (W_payload W_crew W_avionics fuel_frac_total error W0_init : ℚ)
    (fuel : ℕ) : Option (Except PyErr (ℚ × ℚ)) :=
  match togw_loop2 We_of (W_payload + W_crew + W_avionics) fuel_frac_total error fuel
      ⟨W0_init, 2 * error, [], none⟩ with
  | none => none
  | some (.error err2) => some (.error err2)
  | some (.ok s) =>
      match s.We_W0_opt with
      | none => some (.error .nameError)
      | some we => some (.ok (s.W0, we * s.W0))

/-! ### Decidability of concrete runs -/

/-- Equality of embedded run results is decidable, so concrete runs can be
settled by `decide`. -/
instance {ε α : Type} [DecidableEq ε] [DecidableEq α] : DecidableEq (Except ε α) := fun a b =>
  match a, b with
  | .error x, .error y =>
      if h : x = y then .isTrue (by rw [h]) else .isFalse (by intro hc; cases hc; exact h rfl)
  | .error _, .ok _ => .isFalse (by intro hc; cases hc)
  | .ok _, .error _ => .isFalse (by intro hc; cases hc)
  | .ok x, .ok y =>
      if h : x = y then .isTrue (by rw [h]) else .isFalse (by intro hc; cases hc; exact h rfl)

attribute [local semireducible] Rat.add Rat.mul Rat.sub Rat.inv

/-! ### Helper lemmas -/

/-- A left fold of multiplication over a list of ones is the identity. -/
theorem foldl_mul_ones (l : List ℚ) (a : ℚ) (h : ∀ x ∈ l, x = 1) :
    l.foldl (fun acc frac => acc * frac) a = a := by
  induction l generalizing a with
  | nil => rfl
  | cons x t ih =>
      have hx : x = 1 := h x (by simp)
      have ht : ∀ y ∈ t, y = 1 := fun y hy => h y (by simp [hy])
      simp only [List.foldl, hx, mul_one]
      exact ih a ht

/-- Case analysis on any successful return of `iterLoop`.  Either the loop
returned through the in-loop convergence branch — then the returned `delta`
is below `err`, at least one iteration ran, and the returned `We_W0` is the
correlation evaluated at the second-to-last guess `Wp`, of which the
returned `W0` is the update — or it returned by exhausting the cap — then
the returned `delta` is not below `err`, the iteration count is the cap,
and `We_W0` was re-evaluated at the returned `W0`. -/
theorem iterLoop_ok_cases (We_of : ℚ → ℚ) (N f err : ℚ) :
    ∀ (fuel i : ℕ) (W0 : ℚ) (d? : Option ℚ) (r : IterResult),
      (∀ d, d? = some d → ¬ d < err) →
      iterLoop We_of N f err fuel i W0 d? = .ok r →
      (r.delta < err ∧ i + 1 ≤ r.iters ∧
        ∃ Wp, r.We_W0 = We_of Wp ∧ 1 - f - We_of Wp ≠ 0 ∧
          r.W0 = N / (1 - f - We_of Wp) ∧ r.W0 ≠ 0 ∧
          r.delta = |r.W0 - Wp| / |r.W0|) ∨
      (¬ r.delta < err ∧ r.iters = i + fuel ∧ r.We_W0 = We_of r.W0) := by
  intro fuel
  induction fuel with
  | zero =>
      intro i W0 d? r hinv h
      cases d? with
      | none => exact absurd h (by simp [iterLoop])
      | some d =>
          simp only [iterLoop] at h
          injection h with h
          subst h
          exact Or.inr ⟨hinv d rfl, (Nat.add_zero i).symm, rfl⟩
  | succ fuel ih =>
      intro i W0 d? r hinv h
      simp only [iterLoop] at h
      by_cases hden : 1 - f - We_of W0 = 0
      · rw [show pydiv N (1 - f - We_of W0) = .error .zeroDivision from by
          simp [pydiv, hden]] at h
        simp at h
      · have hp1 : pydiv N (1 - f - We_of W0) = .ok (N / (1 - f - We_of W0)) := by
          simp [pydiv, hden]
        simp only [hp1] at h
        by_cases habs : |N / (1 - f - We_of W0)| = 0
        · rw [show pydiv |N / (1 - f - We_of W0) - W0| |N / (1 - f - We_of W0)| =
              .error .zeroDivision from by simp [pydiv, habs]] at h
          simp at h
        · have hp2 : pydiv |N / (1 - f - We_of W0) - W0| |N / (1 - f - We_of W0)| =
              .ok (|N / (1 - f - We_of W0) - W0| / |N / (1 - f - We_of W0)|) := by
            simp [pydiv, habs]
          simp only [hp2] at h
          by_cases hlt : |N / (1 - f - We_of W0) - W0| / |N / (1 - f - We_of W0)| < err
          · rw [if_pos hlt] at h
            injection h with h
            subst h
            refine Or.inl ⟨hlt, le_refl _, W0, rfl, hden, rfl, ?_, rfl⟩
            intro h0
            exact habs (by rw [show N / (1 - f - We_of W0) = 0 from h0, abs_zero])
          · rw [if_neg hlt] at h
            have hres := ih (i + 1) (N / (1 - f - We_of W0))
              (some (|N / (1 - f - We_of W0) - W0| / |N / (1 - f - We_of W0)|)) r
              (fun d hd => by injection hd with hd; rw [← hd]; exact hlt) h
            rcases hres with ⟨h1, h2, rest⟩ | ⟨h1, h2, h3⟩
            · exact Or.inl ⟨h1, Nat.le_trans (Nat.le_succ _) h2, rest⟩
            · exact Or.inr ⟨h1, by omega, h3⟩


/-! ### Claim C1 -/

/-- C1: the claim states that whenever the update denominator
`1 - total_fuel_fraction - We/W0` becomes non-positive, the solver raises a
DivergentOrInfeasible failure instead of returning a negative or infinite
TOGW.  The code violates this: the guard is commented out in concept 1
(lines 103-107) and absent from concept 2's while loop.  This theorem
evaluates both solvers at the specification's own failing example
(total fuel fraction 0.95, constant empty-weight fraction We/W0 = 0.10, so
the denominator is 1 - 0.95 - 0.10 = -0.05 < 0 at every iteration, payload
+ crew = 1000 lb, seed 80000, tolerance 1e-6): concept 1 "converges" in 2
iterations and returns the negative TOGW -20000 lb, and concept 2
terminates normally returning (W0, We) = (-20000, -2000), neither raising
any error. -/
theorem c1_disabled_guard_returns_negative_togw :
    iterate_W0 (fun _ => (1:ℚ)/10) 1000 0 (19/20) 80000 (1/1000000) 200 =
      .ok ⟨-20000, 1/10, 2, 0⟩ ∧
    togw_concept2 (fun _ => (1:ℚ)/10) 1000 0 0 (19/20) (1/1000000) 80000 200 =
      some (.ok (-20000, -2000)) ∧
    (1 - 19/20 - (1:ℚ)/10 < 0) :=
  ⟨by decide, by decide, by decide⟩

/-! ### Claim C2 -/

/-- C2 counterexample: the claim states that when the iteration does not
reach a relative change below tolerance within the configured maximum
iteration count, the solver fails and returns no partial result.  Concrete
refutation: with correlation We/W0 = 100/W0, payload+crew = 1, fuel
fraction 0, seed 200, tolerance 1e-6 and cap 2, both iterations have
relative change 99 (not below 1e-6), yet `iterate_W0` returns the partial
result (last iterate -1/49, re-evaluated We/W0 = -4900, iteration count 2,
last delta 99) as an ordinary success instead of failing. -/
theorem c2_counterexample :
    iterate_W0 (fun W => 100 / W) 1 0 0 200 (1/1000000) 2 =
      .ok ⟨-1/49, -4900, 2, 99⟩ ∧
    ¬((99:ℚ) < 1/1000000) :=
  ⟨by decide, by decide⟩

/-- C2 (amended): when `iterate_W0` returns without having reached a
relative change below tolerance (the returned `delta` is not below `err`),
it does not fail: it returns normally the partial result, whose iteration
count is the full cap `max_iter` and whose empty-weight fraction is
re-evaluated at the returned `W0`.  (Concept 2's while loop has no
iteration cap at all.) -/
theorem c2_amended_cap_returns_partial_result (We_of : ℚ → ℚ)
    (W_payload W_crew fuel_frac W0_guess err : ℚ) (max_iter : ℕ) (r : IterResult)
    (h : iterate_W0 We_of W_payload W_crew fuel_frac W0_guess err max_iter = .ok r)
    (hnc : ¬ r.delta < err) :
    r.iters = max_iter ∧ r.We_W0 = We_of r.W0 := by
  have hcases := iterLoop_ok_cases We_of (W_payload + W_crew) fuel_frac err max_iter 0
    W0_guess none r (fun d hd => Option.noConfusion hd) h
  rcases hcases with ⟨h1, _, _⟩ | ⟨_, h2, h3⟩
  · exact absurd h1 hnc
  · exact ⟨by omega, h3⟩

/-- C2 witness: the amended theorem applied to the concrete
non-converging run above (seed 200, tolerance 1e-6, cap 2). -/
theorem c2_amended_witness :
    iterate_W0 (fun W => 100 / W) 1 0 0 200 (1/1000000) 2 =
      .ok ⟨-1/49, -4900, 2, 99⟩ ∧
    (⟨-1/49, -4900, 2, 99⟩ : IterResult).iters = 2 ∧
    (⟨-1/49, -4900, 2, 99⟩ : IterResult).We_W0 =
      (fun W => (100:ℚ) / W) (⟨-1/49, -4900, 2, 99⟩ : IterResult).W0 :=
  ⟨by decide,
   (c2_amended_cap_returns_partial_result (fun W => 100 / W) 1 0 0 200 (1/1000000) 2
      ⟨-1/49, -4900, 2, 99⟩ (by decide) (by decide)).1,
   (c2_amended_cap_returns_partial_result (fun W => 100 / W) 1 0 0 200 (1/1000000) 2
      ⟨-1/49, -4900, 2, 99⟩ (by decide) (by decide)).2⟩

/-! ### Claim C3 -/

/-- C3: mission-type selection over the closed tag set.  Tag "A2A" yields
exactly the air-to-air ordnance sum `W_A2A`, "STRIKE" the strike ordnance
sum `W_strike`, "BOTH" their sum, and every other tag raises
`ValueError("Invalid mission type selected")` rather than silently
defaulting. -/
theorem c3_mission_type_selection :
    select_payload "A2A" = .ok W_A2A ∧
    select_payload "STRIKE" = .ok W_strike ∧
    select_payload "BOTH" = .ok (W_A2A + W_strike) ∧
    ∀ tag : String, tag ≠ "A2A" → tag ≠ "STRIKE" → tag ≠ "BOTH" →
      select_payload tag = .error .valueError := by
  refine ⟨by decide, by decide, by decide, ?_⟩
  intro tag h1 h2 h3
  simp [select_payload, h1, h2, h3]

/-- C3 witness: the unrecognized tag "CAS" is rejected. -/
theorem c3_witness : select_payload "CAS" = .error .valueError :=
  c3_mission_type_selection.2.2.2 "CAS" (by decide) (by decide) (by decide)

/-! ### Claim C4 -/

/-- C4 counterexample: the claim states that with payload, crew and fixed
equipment weights all zero and a feasible (positive) denominator, the
solver returns a converged TOGW of 0 in one iteration without raising a
divide-by-zero error.  In fact the first update computes `W0_new = 0`, and
the convergence metric `abs(W0_new - W0) / abs(W0_new)` then divides by
`abs(0) = 0`: the solver raises `ZeroDivisionError` and returns nothing.
Concrete input: constant correlation We/W0 = 1/2, fuel fraction 1/4
(denominator 1 - 1/4 - 1/2 = 1/4 > 0, feasible), seed 80000, tolerance
1e-6, cap 200. -/
theorem c4_counterexample :
    iterate_W0 (fun _ => (1:ℚ)/2) 0 0 (1/4) 80000 (1/1000000) 200 =
      .error .zeroDivision ∧
    (0:ℚ) < 1 - 1/4 - 1/2 :=
  ⟨by decide, by decide⟩

/-- C4 (amended): with payload, crew and fixed equipment weights all zero
and the first denominator nonzero, concept 1's `iterate_W0` raises
`ZeroDivisionError` on its first iteration (the convergence metric divides
by `abs(W0_new) = 0`), and so does concept 2's while loop whenever its
tolerance is positive (so that the loop body runs); neither returns a
TOGW of 0. -/
theorem c4_amended_zero_payload_divide_by_zero (We_of : ℚ → ℚ)
    (fuel_frac W0_guess err : ℚ) (m : ℕ)
    (hden : 1 - fuel_frac - We_of W0_guess ≠ 0) :
    iterate_W0 We_of 0 0 fuel_frac W0_guess err (m + 1) = .error .zeroDivision ∧
    (0 < err →
      togw_concept2 We_of 0 0 0 fuel_frac err W0_guess (m + 1) =
        some (.error .zeroDivision)) := by
  constructor
  · have hp1 : pydiv (0 + 0) (1 - fuel_frac - We_of W0_guess) = .ok 0 := by
      simp [pydiv, hden]
    have hp2 : pydiv |(0:ℚ) - W0_guess| |(0:ℚ)| = .error .zeroDivision := by
      simp [pydiv]
    simp only [iterate_W0, iterLoop, hp1, hp2]
  · intro herr
    have hgt : (2 * err > err) := by linarith
    have hp1 : pydiv (0 + 0 + 0) (1 - fuel_frac - We_of W0_guess) = .ok 0 := by
      simp [pydiv, hden]
    have hp2 : pydiv |(0:ℚ) - W0_guess| |(0:ℚ)| = .error .zeroDivision := by
      simp [pydiv]
    simp only [togw_concept2, togw_loop2, if_pos hgt, hp1, hp2]

/-- C4 witness: the amended theorem applied at a concrete feasible
configuration (constant We/W0 = 3/5, fuel fraction 1/5, seed 12345,
tolerance 1e-6). -/
theorem c4_amended_witness :
    iterate_W0 (fun _ => (3:ℚ)/5) 0 0 (1/5) 12345 (1/1000000) (199 + 1) =
      .error .zeroDivision ∧
    togw_concept2 (fun _ => (3:ℚ)/5) 0 0 0 (1/5) (1/1000000) 12345 (199 + 1) =
      some (.error .zeroDivision) :=
  ⟨(c4_amended_zero_payload_divide_by_zero (fun _ => (3:ℚ)/5) (1/5) 12345
      (1/1000000) 199 (by decide)).1,
   (c4_amended_zero_payload_divide_by_zero (fun _ => (3:ℚ)/5) (1/5) 12345
      (1/1000000) 199 (by decide)).2 (by decide)⟩

/-! ### Claim C5 -/

/-- C5 counterexample: the claim states that a zero or negative tolerance
makes the solver fail fast with an InvalidConfiguration error detected
before iteration begins.  Neither solver has any such check.  Concrete
refutation with tolerance -1: concept 1's `iterate_W0` iterates the full
cap and returns an ordinary result (no error of any kind), and concept 2's
while loop is skipped at once (initial `delta = 2*error` is not greater
than `error`), after which `We = We_W0 * W0` raises `NameError` — neither
is a fail-fast InvalidConfiguration rejection. -/
theorem c5_counterexample :
    iterate_W0 (fun _ => (1:ℚ)/2) 100 0 (1/4) 80000 (-1) 2 =
      .ok ⟨400, 1/2, 2, 0⟩ ∧
    togw_concept2 (fun _ => (1:ℚ)/2) 100 0 0 (1/4) (-1) 80000 200 =
      some (.error .nameError) :=
  ⟨by decide, by decide⟩

/-- C5 (amended): no tolerance validation exists.  With tolerance
`err ≤ 0`, concept 1's `iterate_W0` can never converge early (the relative
change is a quotient of absolute values, hence nonnegative, hence never
below `err`), so every successful return carries the full iteration cap;
and concept 2's while loop body never runs (`2*err > err` fails), so the
subsequent read of `We_W0` raises `NameError`. -/
theorem c5_amended_no_tolerance_validation :
    (∀ (We_of : ℚ → ℚ) (W_payload W_crew fuel_frac W0_guess err : ℚ)
      (max_iter : ℕ) (r : IterResult),
      err ≤ 0 →
      iterate_W0 We_of W_payload W_crew fuel_frac W0_guess err max_iter = .ok r →
      r.iters = max_iter) ∧
    (∀ (We_of : ℚ → ℚ) (W_payload W_crew W_avionics fuel_frac err W0_init : ℚ)
      (fuel : ℕ),
      err ≤ 0 →
      togw_concept2 We_of W_payload W_crew W_avionics fuel_frac err W0_init (fuel + 1) =
        some (.error .nameError)) := by
  constructor
  · intro We_of Wp Wc f seed err m r herr h
    have hcases := iterLoop_ok_cases We_of (Wp + Wc) f err m 0 seed none r
      (fun d hd => Option.noConfusion hd) h
    rcases hcases with ⟨h1, -, ⟨Wp2, -, -, -, -, hdelta⟩⟩ | ⟨-, h2, -⟩
    · have hnn : 0 ≤ r.delta := hdelta ▸ div_nonneg (abs_nonneg _) (abs_nonneg _)
      linarith
    · omega
  · intro We_of Wp Wc Wa f err seed fuel herr
    have hngt : ¬ (2 * err > err) := by linarith
    simp only [togw_concept2, togw_loop2, if_neg hngt]

/-- C5 witness: the amended theorem applied to a concrete run with
tolerance -1. -/
theorem c5_amended_witness :
    (⟨400, 1/2, 2, 0⟩ : IterResult).iters = 2 ∧
    togw_concept2 (fun _ => (1:ℚ)/2) 100 0 0 (1/4) (-1) 80000 (199 + 1) =
      some (.error .nameError) :=
  ⟨c5_amended_no_tolerance_validation.1 (fun _ => (1:ℚ)/2) 100 0 (1/4) 80000 (-1) 2
      ⟨400, 1/2, 2, 0⟩ (by norm_num) (by decide),
   c5_amended_no_tolerance_validation.2 (fun _ => (1:ℚ)/2) 100 0 0 (1/4) (-1) 80000 199
      (by norm_num)⟩

/-! ### Claim C6 -/

/-- C6: in concept 2's fuel-fraction computation, if the cruise speed
`V ≤ 0` the Breguet cruise weight ratio is taken as 1.0, and if `L/D ≤ 0`
the Breguet loiter weight ratio is taken as 1.0, instead of dividing by
zero; for positive inputs the ratios equal `exp(-R*c/(V*L/D))` and
`exp(-E*c/(L/D))`.  (Concept 1 inlines the same exponential formulas with
hardcoded positive `V` and `L/D` and no guard; its ratios for positive
inputs are included as the last two conjuncts.)  `e` stands for
`math.exp`. -/
theorem c6_breguet_degenerate_guards (e : ℚ → ℚ) (R E c V LD : ℚ) :
    (V ≤ 0 → Wf_Wi_cruise e R c V LD = .ok 1) ∧
    (0 < V → 0 < LD → Wf_Wi_cruise e R c V LD = .ok (e (-R * c / (V * LD)))) ∧
    (LD ≤ 0 → Wf_Wi_loiter e E c LD = .ok 1) ∧
    (0 < LD → Wf_Wi_loiter e E c LD = .ok (e (-E * c / LD))) ∧
    (0 < V → 0 < LD → c1_Wf_Wi_cruise e R c V LD = .ok (e (-R * c / (V * LD)))) ∧
    (0 < LD → c1_Wf_Wi_loiter e E c LD = .ok (e (-E * c / LD))) := by
  refine ⟨?_, ?_, ?_, ?_, ?_, ?_⟩
  · intro hV
    simp [Wf_Wi_cruise, not_lt.mpr hV]
  · intro hV hLD
    have hVLD : V * LD ≠ 0 := (mul_pos hV hLD).ne'
    simp [Wf_Wi_cruise, hV, pydiv, hVLD, Except.map]
  · intro hLD
    simp [Wf_Wi_loiter, not_lt.mpr hLD]
  · intro hLD
    simp [Wf_Wi_loiter, hLD, pydiv, hLD.ne', Except.map]
  · intro hV hLD
    have hVLD : V * LD ≠ 0 := (mul_pos hV hLD).ne'
    simp [c1_Wf_Wi_cruise, pydiv, hVLD, Except.map]
  · intro hLD
    simp [c1_Wf_Wi_loiter, pydiv, hLD.ne', Except.map]

/-- C6 witness: both degenerate branches and both positive-input formulas
evaluated at concrete points, with `e` instantiated to the concrete
function `q ↦ q + 1` (so that the value records where `e` was applied). -/
theorem c6_witness :
    Wf_Wi_cruise (fun q => q + 1) 5 1 (-1) 3 = .ok 1 ∧
    Wf_Wi_cruise (fun q => q + 1) 5 1 2 4 = .ok (3/8) ∧
    Wf_Wi_loiter (fun q => q + 1) 7 1 (-3) = .ok 1 ∧
    Wf_Wi_loiter (fun q => q + 1) 7 1 5 = .ok (-2/5) ∧
    c1_Wf_Wi_cruise (fun q => q + 1) 5 1 2 4 = .ok (3/8) ∧
    c1_Wf_Wi_loiter (fun q => q + 1) 7 1 5 = .ok (-2/5) :=
  ⟨(c6_breguet_degenerate_guards (fun q => q + 1) 5 7 1 (-1) 3).1 (by norm_num),
   (c6_breguet_degenerate_guards (fun q => q + 1) 5 7 1 2 4).2.1 (by norm_num) (by norm_num),
   (c6_breguet_degenerate_guards (fun q => q + 1) 5 7 1 2 (-3)).2.2.1 (by norm_num),
   (c6_breguet_degenerate_guards (fun q => q + 1) 5 7 1 2 5).2.2.2.1 (by norm_num),
   (c6_breguet_degenerate_guards (fun q => q + 1) 5 7 1 2 4).2.2.2.2.1 (by norm_num) (by norm_num),
   (c6_breguet_degenerate_guards (fun q => q + 1) 5 7 1 2 5).2.2.2.2.2 (by norm_num)⟩

/-! ### Claim C7 -/

/-- C7 counterexample: the claim quantifies over every mission profile
with all segment fractions 1.0, zero radius and zero loiter time.  For the
profile with cruise speed `V = 1 > 0` and `L/D = 0`, the cruise guard
(`V > 0`) takes the exponential branch and the expression
`-R*c/(V*LD) = 0/0` raises `ZeroDivisionError`, so the mission fuel
fraction is not 0 — it is not computed at all. -/
theorem c7_counterexample :
    fuel_frac_mission id [1, 1, 1, 1, 1, 1] 0 0 (3/4) 1 0 = .error .zeroDivision := by
  decide

/-- C7 (amended): for every mission profile whose segment fractions are
all exactly 1.0 and whose combat radius and loiter time are both zero,
and which does not hit the unguarded division (cruise speed positive
while L/D = 0), the mission fuel fraction equals 0 exactly (using
`exp 0 = 1`, the defining value of `math.exp` at 0). -/
theorem c7_amended_fuel_frac_mission_zero (e : ℚ → ℚ) (segs : List ℚ) (c V LD : ℚ)
    (hsegs : ∀ x ∈ segs, x = 1) (he : e 0 = 1) (hok : ¬(0 < V ∧ LD = 0)) :
    fuel_frac_mission e segs 0 0 c V LD = .ok 0 := by
  have hcr : Wf_Wi_cruise e 0 c V LD = .ok 1 := by
    by_cases hV : 0 < V
    · have hLD : LD ≠ 0 := fun h0 => hok ⟨hV, h0⟩
      have hVLD : V * LD ≠ 0 := mul_ne_zero hV.ne' hLD
      simp [Wf_Wi_cruise, hV, pydiv, hVLD, Except.map, he]
    · simp [Wf_Wi_cruise, hV]
  have hlo : Wf_Wi_loiter e 0 c LD = .ok 1 := by
    by_cases hLD : 0 < LD
    · simp [Wf_Wi_loiter, hLD, pydiv, hLD.ne', Except.map, he]
    · simp [Wf_Wi_loiter, hLD]
  simp only [fuel_frac_mission, hcr, hlo, W_end_W0, foldl_mul_ones segs 1 hsegs]
  norm_num

/-- C7 witness: the amended theorem applied to a concrete profile
(two segments of 1.0, `c = 5`, `V = 2`, `L/D = 3`, `e 0 = 1`). -/
theorem c7_amended_witness :
    fuel_frac_mission (fun _ => 1) [1, 1] 0 0 5 2 3 = .ok 0 :=
  c7_amended_fuel_frac_mission_zero (fun _ => 1) [1, 1] 5 2 3 (by decide) rfl (by decide)

/-! ### Claim C8 -/

/-- C8 counterexample: the claim states that feeding a converged output
`W0*` back as the seed always yields a relative change below tolerance on
the first iteration.  Refutation with the power-law correlation
`We/W0 = 100 * W0 ** (-1)` (coefficient A = 100, negative exponent
C = -1), payload+crew = 1, fuel fraction 0, tolerance 1/1000: from seed
202001/2000 the solver converges on its first iteration (relative change
1/2000 < 1/1000) to `W0* = 202001/2001`, but re-running from seed `W0*`
(same payload, fuel fraction, correlation and tolerance) produces the
first-iteration relative change 100/2001 ≈ 0.05, which is not below the
tolerance (the update map is expanding near this repelling fixed point).
The second run is evaluated with cap 1 so that its returned `delta` field
is exactly the first-iteration relative change; the amended theorem below
shows the first-iteration relative change does not depend on the cap. -/
theorem c8_counterexample :
    iterate_W0 (fun W => 100 / W) 1 0 0 (202001/2000) (1/1000) 200 =
      .ok ⟨202001/2001, 200000/202001, 1, 1/2000⟩ ∧
    ((1:ℚ)/2000 < 1/1000) ∧
    iterate_W0 (fun W => 100 / W) 1 0 0 (202001/2001) (1/1000) 1 =
      .ok ⟨202001/1901, 190100/202001, 1, 100/2001⟩ ∧
    ¬((100:ℚ)/2001 < 1/1000) :=
  ⟨by decide, by decide, by decide, by decide⟩

/-- C8 (amended): re-running the solver from any seed (in particular from
a converged output) yields on its first iteration exactly the relative
change `|g(seed) - seed| / |g(seed)|`, where
`g(W) = (payload + crew) / (1 - fuel_frac - We/W0(W))` is the update map:
the re-run converges on the first iteration precisely when that quantity
is below the tolerance.  Convergence of the original run does not
guarantee it: the claim holds only where the
update map is contracting at the returned point. -/
theorem c8_amended_reseed_first_iteration_delta (We_of : ℚ → ℚ)
    (W_payload W_crew fuel_frac err seed : ℚ) (m : ℕ)
    (hden : 1 - fuel_frac - We_of seed ≠ 0)
    (hW0n : (W_payload + W_crew) / (1 - fuel_frac - We_of seed) ≠ 0) :
    (|(W_payload + W_crew) / (1 - fuel_frac - We_of seed) - seed| /
        |(W_payload + W_crew) / (1 - fuel_frac - We_of seed)| < err →
      iterate_W0 We_of W_payload W_crew fuel_frac seed err (m + 1) =
        .ok ⟨(W_payload + W_crew) / (1 - fuel_frac - We_of seed), We_of seed, 1,
             |(W_payload + W_crew) / (1 - fuel_frac - We_of seed) - seed| /
               |(W_payload + W_crew) / (1 - fuel_frac - We_of seed)|⟩) ∧
    (∀ r : IterResult,
      iterate_W0 We_of W_payload W_crew fuel_frac seed err (m + 1) = .ok r →
      r.delta < err → r.iters = 1 →
      r.delta = |(W_payload + W_crew) / (1 - fuel_frac - We_of seed) - seed| /
        |(W_payload + W_crew) / (1 - fuel_frac - We_of seed)|) := by
  have hp1 : pydiv (W_payload + W_crew) (1 - fuel_frac - We_of seed) =
      .ok ((W_payload + W_crew) / (1 - fuel_frac - We_of seed)) := by
    simp [pydiv, hden]
  have habs : ¬ |(W_payload + W_crew) / (1 - fuel_frac - We_of seed)| = 0 :=
    fun h0 => hW0n (abs_eq_zero.mp h0)
  have hp2 : pydiv |(W_payload + W_crew) / (1 - fuel_frac - We_of seed) - seed|
      |(W_payload + W_crew) / (1 - fuel_frac - We_of seed)| =
      .ok (|(W_payload + W_crew) / (1 - fuel_frac - We_of seed) - seed| /
        |(W_payload + W_crew) / (1 - fuel_frac - We_of seed)|) := by
    simp [pydiv, habs]
  constructor
  · intro hlt
    simp only [iterate_W0, iterLoop, hp1, hp2, if_pos hlt]
  · intro r h hdlt hit1
    simp only [iterate_W0, iterLoop, hp1, hp2] at h
    by_cases hlt : |(W_payload + W_crew) / (1 - fuel_frac - We_of seed) - seed| /
        |(W_payload + W_crew) / (1 - fuel_frac - We_of seed)| < err
    · rw [if_pos hlt] at h
      injection h with h
      subst h
      rfl
    · rw [if_neg hlt] at h
      have hcases := iterLoop_ok_cases We_of (W_payload + W_crew) fuel_frac err m 1
        ((W_payload + W_crew) / (1 - fuel_frac - We_of seed))
        (some (|(W_payload + W_crew) / (1 - fuel_frac - We_of seed) - seed| /
          |(W_payload + W_crew) / (1 - fuel_frac - We_of seed)|)) r
        (fun d hd => by injection hd with hd; rw [← hd]; exact hlt) h
      rcases hcases with ⟨-, h2, -⟩ | ⟨h1, -, -⟩
      · omega
      · exact absurd hdlt h1

/-- C8 witness: the first-iteration characterization applied to the
converging seed 202001/2000 (payload+crew 1, fuel fraction 0,
correlation `W ↦ 100/W`, tolerance 1/1000). -/
theorem c8_amended_witness :
    iterate_W0 (fun W => 100 / W) 1 0 0 (202001/2000) (1/1000) (199 + 1) =
      .ok ⟨202001/2001, 200000/202001, 1, 1/2000⟩ :=
  (c8_amended_reseed_first_iteration_delta (fun W => 100 / W) 1 0 0 (1/1000)
      (202001/2000) 199 (by decide) (by decide)).1 (by decide)

/-! ### Claim C9 -/

/-- C9: concept 1's `solve_case` reports TOGW and empty weight each offset
by the constant engine weight `W_engine = 3830` lb (`W0 + W_engine`,
`We_W0 * W0 + W_engine`), while the reported fuel weight is
`fuel_frac_total` times the un-augmented iterate `W0`; consequently the
returned ratio fields `WeW0` and `WfW0` are not the ratios `We/W0` and
`Wf/W0` of the returned weights (whenever `We_W0 ≠ 1` and the fuel
fraction is nonzero). -/
theorem c9_solve_case_engine_offset (We_of : ℚ → ℚ)
    (W_crew fuel_frac_total W_payload_case W0_guess : ℚ) (r : IterResult)
    (h : iterate_W0 We_of W_payload_case W_crew fuel_frac_total W0_guess
      (1/1000000) 200 = .ok r)
    (hWe1 : r.We_W0 ≠ 1) (hf : fuel_frac_total ≠ 0)
    (hWE : r.W0 + W_engine ≠ 0) :
    solve_case We_of W_crew fuel_frac_total W_payload_case W0_guess =
      .ok ⟨r.W0 + W_engine, r.We_W0 * r.W0 + W_engine, fuel_frac_total * r.W0,
           r.We_W0, fuel_frac_total, r.iters⟩ ∧
    (r.We_W0 * r.W0 + W_engine) / (r.W0 + W_engine) ≠ r.We_W0 ∧
    (fuel_frac_total * r.W0) / (r.W0 + W_engine) ≠ fuel_frac_total := by
  refine ⟨by simp only [solve_case, h], ?_, ?_⟩
  · intro heq
    have h2 : r.We_W0 * r.W0 + W_engine = r.We_W0 * (r.W0 + W_engine) :=
      (div_eq_iff hWE).mp heq
    have h3 : W_engine * (1 - r.We_W0) = 0 := by linear_combination h2
    rcases mul_eq_zero.mp h3 with hE | hw
    · exact absurd hE (by norm_num [W_engine])
    · exact hWe1 (by linarith)
  · intro heq
    have h2 : fuel_frac_total * r.W0 = fuel_frac_total * (r.W0 + W_engine) :=
      (div_eq_iff hWE).mp heq
    have h3 : fuel_frac_total * W_engine = 0 := by linear_combination -h2
    rcases mul_eq_zero.mp h3 with hf0 | hE
    · exact hf hf0
    · exact absurd hE (by norm_num [W_engine])

/-- C9 witness: a concrete converged case (constant We/W0 = 1/2, fuel
fraction 1/4, payload 100, crew 0, seed 80000 converges to the iterate
W0 = 400 in 2 iterations): the reported dictionary is
(4230, 4030, 100, 1/2, 1/4, 2) and indeed 4030/4230 ≠ 1/2 and
100/4230 ≠ 1/4. -/
theorem c9_witness :
    solve_case (fun _ => (1:ℚ)/2) 0 (1/4) 100 80000 =
      .ok ⟨400 + W_engine, 1/2 * 400 + W_engine, 1/4 * 400, 1/2, 1/4, 2⟩ ∧
    ((1/2 * 400 + W_engine) / (400 + W_engine) ≠ (1:ℚ)/2) ∧
    ((1/4 * 400) / (400 + W_engine) ≠ (1:ℚ)/4) :=
  c9_solve_case_engine_offset (fun _ => (1:ℚ)/2) 0 (1/4) 100 80000
    ⟨400, 1/2, 2, 0⟩ (by decide) (by decide) (by decide) (by decide)

/-! ### Claim C10 -/

/-- C10: when `iterate_W0` returns through the convergence branch (the
returned `delta` is below `err`), the returned empty-weight fraction is
the correlation evaluated at the second-to-last guess — the guess `Wprev`
whose update produced the returned `W0` — not at the returned `W0`
itself; on the cap branch (returned `delta` not below `err`) it is
re-evaluated at the final `W0`.  For an injective correlation (as the
source's power law is on positive weights), the two evaluations differ
whenever the final update moved the guess. -/
theorem c10_we_fraction_evaluation_point (We_of : ℚ → ℚ)
    (W_payload W_crew fuel_frac W0_guess err : ℚ) (max_iter : ℕ) (r : IterResult)
    (h : iterate_W0 We_of W_payload W_crew fuel_frac W0_guess err max_iter = .ok r) :
    (r.delta < err →
      ∃ Wprev, r.We_W0 = We_of Wprev ∧ 1 - fuel_frac - We_of Wprev ≠ 0 ∧
        r.W0 = (W_payload + W_crew) / (1 - fuel_frac - We_of Wprev) ∧
        (Function.Injective We_of → Wprev ≠ r.W0 → r.We_W0 ≠ We_of r.W0)) ∧
    (¬ r.delta < err → r.We_W0 = We_of r.W0) := by
  have hcases := iterLoop_ok_cases We_of (W_payload + W_crew) fuel_frac err max_iter 0
    W0_guess none r (fun d hd => Option.noConfusion hd) h
  constructor
  · intro hdlt
    rcases hcases with ⟨-, -, Wp2, hWe, hden2, hW0, -, -⟩ | ⟨h1, -, -⟩
    · refine ⟨Wp2, hWe, hden2, hW0, ?_⟩
      intro hinj hne hc
      exact hne (hinj (show We_of Wp2 = We_of r.W0 by rw [← hWe]; exact hc))
    · exact absurd hdlt h1
  · intro hnd
    rcases hcases with ⟨h1, -, -⟩ | ⟨-, -, h3⟩
    · exact absurd h1 hnd
    · exact h3

/-- C10 witness: the cap-branch re-evaluation applied to the concrete
capped run with correlation `W ↦ 100/W`: the returned We/W0 field
190100/202001 equals the correlation evaluated at the returned final
W0 = 202001/1901. -/
theorem c10_witness :
    iterate_W0 (fun W => 100 / W) 1 0 0 (202001/2001) (1/1000) 1 =
      .ok ⟨202001/1901, 190100/202001, 1, 100/2001⟩ ∧
    (190100/202001 : ℚ) = (fun W => (100:ℚ) / W) (202001/1901) :=
  ⟨by decide,
   (c10_we_fraction_evaluation_point (fun W => 100 / W) 1 0 0 (202001/2001) (1/1000) 1
      ⟨202001/1901, 190100/202001, 1, 100/2001⟩ (by decide)).2 (by decide)⟩
